import Mathlib

/-!
Verification of the error taxonomy of the multipart/form-data parsing
library (file src/error.rs): the Error enum, its Display rendering, its
Debug rendering, its std error source accessor, and its PartialEq
implementation. Rendered text is modelled as List Char; the payload of a
type-erased boxed cause is modelled by the one capability the contract
requires of it, its rendered message.
-/

namespace Multer

/-- A type-erased cause value (boxed dyn Error, httparse Error, mime
FromStrError, serde_json Error). Only its rendered message is observable;
msg is that rendering. -/
structure Cause where
  msg : String
  deriving DecidableEq

/-- The char-level escaping performed by the Rust Debug formatter for str
values, exact on the ASCII range: tab, newline, carriage return,
backslash, double quote and NUL are escaped with a backslash; the
remaining ASCII control characters and DEL become a unicode escape; every
other character is kept verbatim. The real formatter additionally escapes
non-ASCII characters that the Unicode tables class as non-printable or
grapheme extended (C1 controls such as U+0085, format characters,
combining marks); the model keeps those verbatim, so every theorem that
relies on a character passing through unescaped restricts itself to
keptVerbatim characters, on which the model and the program agree. -/
def escapeDebugChar (c : Char) : List Char :=
  if c = '\t' then ['\\', 't']
  else if c = '\n' then ['\\', 'n']
  else if c = '\r' then ['\\', 'r']
  else if c = '\\' then ['\\', '\\']
  else if c = '"' then ['\\', '"']
  else if c = '\x00' then ['\\', '0']
  else if c.toNat < 32 ∨ c.toNat = 127 then
    ['\\', 'u', '\x7b'] ++ Nat.toDigits 16 c.toNat ++ ['\x7d']
  else [c]

/-- Escape every character of a string, as the Debug formatter for str does. -/
def escString (s : String) : List Char :=
  (s.data.map escapeDebugChar).flatten

/-- The Debug rendering of a str value, as produced by a debug format
specifier in the write macro: escaped content between double quotes. -/
def fmtDebugStr (s : String) : List Char :=
  '"' :: escString s ++ ['"']

/-- The decimal Display rendering of an unsigned integer. -/
def fmtNat (n : Nat) : List Char :=
  (Nat.repr n).data

/-- Characters the debug formatter keeps verbatim, as far as the claims
need them: printable ASCII other than the double quote and the backslash,
together with an explicit whitelist of non-ASCII characters (here the en
dash of the X–Bad instance) that the Unicode tables class as printable and
not grapheme extended, so the Rust formatter also keeps them verbatim. -/
def keptVerbatim (c : Char) : Bool :=
  (32 ≤ c.toNat && c.toNat < 127 && c != '"' && c != '\\') || c == '–'

/-- The seven Display messages of the external httparse crate Error type,
which is the concrete payload type of ReadHeaderFailed. -/
def httparseMessages : List String :=
  ["invalid header name", "invalid header value", "invalid new line",
   "invalid response status", "invalid token", "too many headers",
   "invalid HTTP version"]

/-- The Error enum of src/error.rs. Byte-vector payloads are lists of byte
values; u64 limits are natural numbers (they are only displayed, never
computed with). The DecodeJson variant models the json feature enabled. -/
inductive Error where
  | UnknownField (field_name : Option String)
  | IncompleteFieldData (field_name : Option String)
  | IncompleteHeaders
  | ReadHeaderFailed (cause : Cause)
  | DecodeHeaderName (name : String) (cause : Cause)
  | DecodeHeaderValue (value : List Nat) (cause : Cause)
  | IncompleteStream
  | FieldSizeExceeded (limit : Nat) (field_name : Option String)
  | StreamSizeExceeded (limit : Nat)
  | StreamReadFailed (cause : Cause)
  | LockFailure
  | NoMultipart
  | DecodeContentType (cause : Cause)
  | NoBoundary
  | MultipleBoundaries
  | DecodeJson (cause : Cause)
  deriving DecidableEq

/-- The Display implementation for Error (impl Display for Error, fmt):
the human readable one-line message. -/
def render : Error → List Char
  | .UnknownField field_name =>
    "unknown field received: ".data ++ fmtDebugStr (field_name.getD "<unknown>")
  | .IncompleteFieldData field_name =>
    "field ".data ++ fmtDebugStr (field_name.getD "<unknown>") ++
      " received with incomplete data".data
  | .DecodeHeaderName name _ =>
    "failed to decode field\x27s raw header name: ".data ++ fmtDebugStr name
  | .DecodeHeaderValue _ _ => "failed to decode field\x27s raw header value".data
  | .FieldSizeExceeded limit field_name =>
    "field ".data ++ fmtDebugStr (field_name.getD "<unknown>") ++
      " exceeded the size limit: ".data ++ fmtNat limit ++ " bytes".data
  | .StreamSizeExceeded limit =>
    "stream size exceeded limit: ".data ++ fmtNat limit ++ " bytes".data
  | .ReadHeaderFailed _ => "failed to read headers".data
  | .StreamReadFailed _ => "failed to read stream".data
  | .DecodeContentType _ => "failed to decode Content-Type".data
  | .IncompleteHeaders => "failed to read field complete headers".data
  | .IncompleteStream => "incomplete multipart stream".data
  | .LockFailure => "failed to lock multipart state".data
  | .NoMultipart => "Content-Type is not multipart/form-data".data
  | .NoBoundary => "multipart boundary not found in Content-Type".data
  | .MultipleBoundaries => "multipart boundary found multiple times in Content-Type".data
  | .DecodeJson _ => "failed to decode field data as JSON".data

/-- The Debug implementation for Error: it delegates to Display. -/
def renderDebug (e : Error) : List Char := render e

/-- The source method of the std error trait implementation for Error. -/
def Error.source : Error → Option Cause
  | .ReadHeaderFailed e => some e
  | .DecodeHeaderName _ cause => some cause
  | .DecodeHeaderValue _ cause => some cause
  | .StreamReadFailed e => some e
  | .DecodeContentType e => some e
  | .DecodeJson e => some e
  | .UnknownField _ | .IncompleteFieldData _ | .IncompleteHeaders
  | .IncompleteStream | .FieldSizeExceeded _ _ | .StreamSizeExceeded _
  | .LockFailure | .NoMultipart | .NoBoundary | .MultipleBoundaries => none

/-- The PartialEq implementation for Error: comparison of the to_string
renderings, where to_string is the Display rendering. -/
def Error.eq (a b : Error) : Bool := render a == render b

/-- The six causal variants enumerated by the specification. -/
def isCausalVariant : Error → Bool
  | .ReadHeaderFailed _ | .DecodeHeaderName _ _ | .DecodeHeaderValue _ _
  | .StreamReadFailed _ | .DecodeContentType _ | .DecodeJson _ => true
  | _ => false

/-- The constructor tag of an error value, used to speak about variants. -/
def tagOf : Error → Nat
  | .UnknownField _ => 0
  | .IncompleteFieldData _ => 1
  | .IncompleteHeaders => 2
  | .ReadHeaderFailed _ => 3
  | .DecodeHeaderName _ _ => 4
  | .DecodeHeaderValue _ _ => 5
  | .IncompleteStream => 6
  | .FieldSizeExceeded _ _ => 7
  | .StreamSizeExceeded _ => 8
  | .StreamReadFailed _ => 9
  | .LockFailure => 10
  | .NoMultipart => 11
  | .DecodeContentType _ => 12
  | .NoBoundary => 13
  | .MultipleBoundaries => 14
  | .DecodeJson _ => 15

/-- Recover the constructor tag of an error from its rendered message
alone, by the fixed prefixes and suffixes of the sixteen message shapes. -/
def classify (s : List Char) : Nat :=
  if "unknown field received: ".data.isPrefixOf s then 0
  else if "field ".data.isPrefixOf s then
    (if " bytes".data.isSuffixOf s then 7 else 1)
  else if "failed to decode field\x27s raw header name: ".data.isPrefixOf s then 4
  else if s == "failed to decode field\x27s raw header value".data then 5
  else if "stream size exceeded limit: ".data.isPrefixOf s then 8
  else if s == "failed to read headers".data then 3
  else if s == "failed to read stream".data then 9
  else if s == "failed to decode Content-Type".data then 12
  else if s == "failed to read field complete headers".data then 2
  else if s == "incomplete multipart stream".data then 6
  else if s == "failed to lock multipart state".data then 10
  else if s == "Content-Type is not multipart/form-data".data then 11
  else if s == "multipart boundary not found in Content-Type".data then 13
  else if s == "multipart boundary found multiple times in Content-Type".data then 14
  else if s == "failed to decode field data as JSON".data then 15
  else 999

theorem isPrefixOf_append_self (s t : List Char) : s.isPrefixOf (s ++ t) = true :=
  List.isPrefixOf_iff_prefix.mpr (List.prefix_append s t)

theorem take_prefix_of_prefix_append (p s t : List Char) (hp : p <+: s ++ t) :
    p.take s.length <+: s := by
  have h1 : p.take s.length <+: (s ++ t).take s.length := hp.take s.length
  rwa [List.take_left] at h1

theorem not_prefixOf_append (p s t : List Char)
    (h : ¬ (p.take s.length <+: s)) : p.isPrefixOf (s ++ t) = false := by
  rw [← Bool.not_eq_true, List.isPrefixOf_iff_prefix]
  intro hp
  exact h (take_prefix_of_prefix_append p s t hp)

theorem suffix_of_append_of_length_le (q s t : List Char) (hq : q <:+ s ++ t)
    (hlen : q.length ≤ t.length) : q <:+ t := by
  rw [← List.reverse_prefix] at hq ⊢
  rw [List.reverse_append] at hq
  have h1 := take_prefix_of_prefix_append q.reverse t.reverse s.reverse hq
  rwa [List.take_of_length_le (by simpa using hlen)] at h1

theorem not_suffix_append (q s t : List Char) (hlen : q.length ≤ t.length)
    (h : ¬ (q <:+ t)) : ¬ (q <:+ s ++ t) :=
  fun hq => h (suffix_of_append_of_length_le q s t hq hlen)

theorem beq_append_ne (s t q : List Char) (h : ¬ (s <+: q)) : ((s ++ t) == q) = false := by
  rw [← Bool.not_eq_true, beq_iff_eq]
  intro he
  exact h (he ▸ List.prefix_append s t)

theorem escapeDebugChar_of_keptVerbatim (c : Char) (h : keptVerbatim c = true) :
    escapeDebugChar c = [c] := by
  simp only [keptVerbatim, Bool.or_eq_true, Bool.and_eq_true, decide_eq_true_eq,
    bne_iff_ne, beq_iff_eq] at h
  rcases h with ⟨⟨⟨h1, h2⟩, h3⟩, h4⟩ | h5
  · have ht : c ≠ '\t' := fun he => absurd (he ▸ h1) (by decide)
    have hn : c ≠ '\n' := fun he => absurd (he ▸ h1) (by decide)
    have hr : c ≠ '\r' := fun he => absurd (he ▸ h1) (by decide)
    have h0 : c ≠ '\x00' := fun he => absurd (he ▸ h1) (by decide)
    have hu : ¬ (c.toNat < 32 ∨ c.toNat = 127) := by omega
    simp [escapeDebugChar, ht, hn, hr, h4, h3, h0, hu]
  · subst h5
    decide

theorem escString_of_all_keptVerbatim (l : List Char) (h : l.all keptVerbatim = true) :
    (l.map escapeDebugChar).flatten = l := by
  induction l with
  | nil => rfl
  | cons c l ih =>
    rw [List.all_cons, Bool.and_eq_true] at h
    rw [List.map_cons, List.flatten_cons, escapeDebugChar_of_keptVerbatim c h.1, ih h.2]
    rfl

theorem classify_render : ∀ e : Error, classify (render e) = tagOf e := by
  intro e
  cases e with
  | UnknownField field_name =>
    have h1 := isPrefixOf_append_self "unknown field received: ".data
      (fmtDebugStr (field_name.getD "<unknown>"))
    simp [classify, render, h1, tagOf]
  | IncompleteFieldData field_name =>
    have h1 := not_prefixOf_append "unknown field received: ".data "field ".data
      (fmtDebugStr (field_name.getD "<unknown>") ++ " received with incomplete data".data)
      (by decide)
    have h2 := isPrefixOf_append_self "field ".data
      (fmtDebugStr (field_name.getD "<unknown>") ++ " received with incomplete data".data)
    have h3 : ¬ (" bytes".data <:+ "field ".data ++
        (fmtDebugStr (field_name.getD "<unknown>") ++
          " received with incomplete data".data)) := by
      rw [← List.append_assoc]
      exact not_suffix_append _ _ _ (by decide) (by decide)
    simp at h3
    simp [classify, render, h1, h2, h3, tagOf]
  | DecodeHeaderName name cause =>
    have h1 := not_prefixOf_append "unknown field received: ".data
      "failed to decode field\x27s raw header name: ".data (fmtDebugStr name) (by decide)
    have h2 := not_prefixOf_append "field ".data
      "failed to decode field\x27s raw header name: ".data (fmtDebugStr name) (by decide)
    have h3 := isPrefixOf_append_self "failed to decode field\x27s raw header name: ".data
      (fmtDebugStr name)
    simp [classify, render, h1, h2, h3, tagOf]
  | FieldSizeExceeded limit field_name =>
    have h1 := not_prefixOf_append "unknown field received: ".data "field ".data
      (fmtDebugStr (field_name.getD "<unknown>") ++
        (" exceeded the size limit: ".data ++ (fmtNat limit ++ " bytes".data))) (by decide)
    have h2 := isPrefixOf_append_self "field ".data
      (fmtDebugStr (field_name.getD "<unknown>") ++
        (" exceeded the size limit: ".data ++ (fmtNat limit ++ " bytes".data)))
    have hb : " bytes".data <:+ "field ".data ++
        (fmtDebugStr (field_name.getD "<unknown>") ++
          (" exceeded the size limit: ".data ++ (fmtNat limit ++ " bytes".data))) := by
      have h0 := List.suffix_append ("field ".data ++ fmtDebugStr (field_name.getD "<unknown>") ++
        " exceeded the size limit: ".data ++ fmtNat limit) " bytes".data
      simpa [List.append_assoc] using h0
    simp at hb
    simp [classify, render, h1, h2, hb, tagOf]
  | StreamSizeExceeded limit =>
    have h1 := not_prefixOf_append "unknown field received: ".data
      "stream size exceeded limit: ".data (fmtNat limit ++ " bytes".data) (by decide)
    have h2 := not_prefixOf_append "field ".data
      "stream size exceeded limit: ".data (fmtNat limit ++ " bytes".data) (by decide)
    have h3 := not_prefixOf_append "failed to decode field\x27s raw header name: ".data
      "stream size exceeded limit: ".data (fmtNat limit ++ " bytes".data) (by decide)
    have h4 := beq_append_ne "stream size exceeded limit: ".data
      (fmtNat limit ++ " bytes".data)
      "failed to decode field\x27s raw header value".data (by decide)
    have h5 := isPrefixOf_append_self "stream size exceeded limit: ".data
      (fmtNat limit ++ " bytes".data)
    simp [classify, render, h1, h2, h3, h4, h5, tagOf]
  | DecodeHeaderValue value cause => simp [classify, render, tagOf]
  | ReadHeaderFailed cause => simp [classify, render, tagOf]
  | StreamReadFailed cause => simp [classify, render, tagOf]
  | DecodeContentType cause => simp [classify, render, tagOf]
  | DecodeJson cause => simp [classify, render, tagOf]
  | IncompleteHeaders => simp [classify, render, tagOf]
  | IncompleteStream => simp [classify, render, tagOf]
  | LockFailure => simp [classify, render, tagOf]
  | NoMultipart => simp [classify, render, tagOf]
  | NoBoundary => simp [classify, render, tagOf]
  | MultipleBoundaries => simp [classify, render, tagOf]

/-- C1: the causal-chain accessor returns the wrapped underlying cause for
exactly the six causal variants ReadHeaderFailed, DecodeHeaderName,
DecodeHeaderValue, StreamReadFailed, DecodeContentType and DecodeJson, and
returns none for every other variant. -/
theorem source_some_iff_causal :
    (∀ e : Error, (Error.source e).isSome = isCausalVariant e) ∧
    (∀ c, Error.source (.ReadHeaderFailed c) = some c) ∧
    (∀ n c, Error.source (.DecodeHeaderName n c) = some c) ∧
    (∀ v c, Error.source (.DecodeHeaderValue v c) = some c) ∧
    (∀ c, Error.source (.StreamReadFailed c) = some c) ∧
    (∀ c, Error.source (.DecodeContentType c) = some c) ∧
    (∀ c, Error.source (.DecodeJson c) = some c) :=
  ⟨fun e => by cases e <;> rfl, fun _ => rfl, fun _ _ => rfl, fun _ _ => rfl,
   fun _ => rfl, fun _ => rfl, fun _ => rfl⟩

/-- C2: two error values are equal under the PartialEq implementation iff
their rendered texts are identical; two NoBoundary values are equal, and a
NoBoundary value is not equal to a MultipleBoundaries value. -/
theorem eq_iff_render_eq :
    (∀ a b : Error, Error.eq a b = true ↔ render a = render b) ∧
    Error.eq .NoBoundary .NoBoundary = true ∧
    Error.eq .NoBoundary .MultipleBoundaries = false :=
  ⟨fun _ _ => beq_iff_eq, by decide, by decide⟩

/-- C3: the debug rendering and the human-readable Display rendering are
equal as functions over all error values. -/
theorem debug_eq_display :
    renderDebug = render ∧ ∀ e : Error, renderDebug e = render e :=
  ⟨rfl, fun _ => rfl⟩

/-- C4 counterexample: StreamReadFailed wraps an arbitrary boxed error, so
a cause value whose rendered message is the phrase failed to read stream
is constructible; its rendered text is embedded in (here, equal to) the
outer rendered output, refuting "the cause rendered text is never embedded
in the outer render output" at this concrete input. -/
theorem cause_text_embedded_cex :
    (Cause.mk "failed to read stream").msg.data <:+:
      render (Error.StreamReadFailed (Cause.mk "failed to read stream")) := by
  decide

/-- C4 (amended): for every causal variant the rendered text of the outer
error is independent of the wrapped cause — with all other payload fields
held equal, any two cause values give identical rendered text, because the
renderer never reads the cause. For ReadHeaderFailed, whose payload is the
httparse error type with seven fixed messages, the cause rendered text
moreover never occurs inside the outer output; for the type-erased boxed
payloads a cause whose own message coincides with (part of) the fixed
phrase can still appear as a substring. -/
theorem render_independent_of_cause :
    (∀ c c', render (.ReadHeaderFailed c) = render (.ReadHeaderFailed c')) ∧
    (∀ n c c', render (.DecodeHeaderName n c) = render (.DecodeHeaderName n c')) ∧
    (∀ v c c', render (.DecodeHeaderValue v c) = render (.DecodeHeaderValue v c')) ∧
    (∀ c c', render (.StreamReadFailed c) = render (.StreamReadFailed c')) ∧
    (∀ c c', render (.DecodeContentType c) = render (.DecodeContentType c')) ∧
    (∀ c c', render (.DecodeJson c) = render (.DecodeJson c')) ∧
    (∀ m ∈ httparseMessages,
      ¬ (m.data <:+: render (.ReadHeaderFailed (Cause.mk m)))) :=
  ⟨fun _ _ => rfl, fun _ _ _ => rfl, fun _ _ _ => rfl, fun _ _ => rfl,
   fun _ _ => rfl, fun _ _ => rfl, by decide⟩

/-- C5: the rendering of FieldSizeExceeded and StreamSizeExceeded always
contains the decimal form of the byte limit; rendering FieldSizeExceeded
with limit 1024 and field name avatar contains both avatar and 1024. -/
theorem limit_in_render :
    (∀ (limit : Nat) (fn : Option String),
      fmtNat limit <:+: render (.FieldSizeExceeded limit fn)) ∧
    (∀ limit : Nat, fmtNat limit <:+: render (.StreamSizeExceeded limit)) ∧
    "avatar".data <:+: render (.FieldSizeExceeded 1024 (some "avatar")) ∧
    "1024".data <:+: render (.FieldSizeExceeded 1024 (some "avatar")) := by
  refine ⟨?_, ?_, by decide, by decide⟩
  · intro limit fn
    exact ⟨"field ".data ++ fmtDebugStr (fn.getD "<unknown>") ++
      " exceeded the size limit: ".data, " bytes".data, by simp [render]⟩
  · intro limit
    exact ⟨"stream size exceeded limit: ".data, " bytes".data, by simp [render]⟩

/-- C6: rendering UnknownField with an absent field name yields non-empty
text containing the placeholder and the rendering is total. -/
theorem unknown_placeholder_render :
    "<unknown>".data <:+: render (.UnknownField none) ∧
    render (.UnknownField none) ≠ [] :=
  ⟨by decide, by decide⟩

/-- C7 counterexample: a raw header name containing a newline is escaped
by the debug formatting, so the raw name text does not occur in the
rendered output, refuting the claim for every DecodeHeaderName value. -/
theorem raw_name_not_in_render_cex :
    ¬ ("\n".data <:+: render (Error.DecodeHeaderName "\n" (Cause.mk "boom"))) := by
  decide

/-- C7 (amended): for every DecodeHeaderName value whose name consists of
characters the debug formatter keeps verbatim — printable ASCII other than
the double quote and the backslash, or whitelisted printable non-ASCII
characters such as the en dash — the rendered text contains the raw name,
and the causal accessor is present; in particular this holds for the name
X–Bad with any cause. -/
theorem decode_header_name_render (name : String) (c : Cause)
    (h : name.data.all keptVerbatim = true) :
    name.data <:+: render (Error.DecodeHeaderName name c) ∧
    (Error.source (Error.DecodeHeaderName name c)).isSome = true := by
  have he : escString name = name.data := escString_of_all_keptVerbatim name.data h
  constructor
  · refine ⟨"failed to decode field\x27s raw header name: ".data ++ ['"'], ['"'], ?_⟩
    simp [render, fmtDebugStr, he]
  · rfl

/-- C7 witness: the amended theorem applied at the name X–Bad. -/
theorem decode_header_name_render_witness :
    "X–Bad".data.all keptVerbatim = true ∧
    ("X–Bad".data <:+: render (Error.DecodeHeaderName "X–Bad" (Cause.mk "boom")) ∧
     (Error.source (Error.DecodeHeaderName "X–Bad" (Cause.mk "boom"))).isSome = true) :=
  ⟨by decide, decode_header_name_render "X–Bad" (Cause.mk "boom") (by decide)⟩

/-- C8: DecodeHeaderValue renders to one fixed phrase for all payloads:
neither the raw value bytes nor the cause influences the rendered text. -/
theorem decode_header_value_fixed :
    (∀ (v : List Nat) (c : Cause),
      render (.DecodeHeaderValue v c) =
        "failed to decode field\x27s raw header value".data) ∧
    (∀ (v v' : List Nat) (c c' : Cause),
      render (.DecodeHeaderValue v c) = render (.DecodeHeaderValue v' c')) :=
  ⟨fun _ _ => rfl, fun _ _ _ _ => rfl⟩

/-- C9: equality never holds across variants — any two error values built
from distinct constructors compare unequal, because their rendered texts
can never coincide. -/
theorem cross_variant_not_equal (a b : Error) (h : tagOf a ≠ tagOf b) :
    Error.eq a b = false := by
  cases hab : Error.eq a b with
  | false => rfl
  | true =>
    exact absurd
      (by rw [← classify_render a, ← classify_render b, beq_iff_eq.mp hab]) h

/-- C9 witness: the theorem applied to NoBoundary and MultipleBoundaries. -/
theorem cross_variant_not_equal_witness :
    tagOf Error.NoBoundary ≠ tagOf Error.MultipleBoundaries ∧
    Error.eq Error.NoBoundary Error.MultipleBoundaries = false :=
  ⟨by decide, cross_variant_not_equal Error.NoBoundary Error.MultipleBoundaries (by decide)⟩

/-- C10: two structurally different error values compare equal — an
UnknownField carrying the literal name identical to the placeholder and an
UnknownField with an absent name render to the same text and therefore
satisfy the PartialEq implementation. -/
theorem placeholder_collision :
    Error.UnknownField (some "<unknown>") ≠ Error.UnknownField none ∧
    render (Error.UnknownField (some "<unknown>")) = render (Error.UnknownField none) ∧
    Error.eq (Error.UnknownField (some "<unknown>")) (Error.UnknownField none) = true :=
  ⟨by decide, rfl, by decide⟩

end Multer
